import Mathlib

/-
Verification of the version-evolution subsystem of the aiproject CLI.

The Rust sources embedded here (shallowly) are:
  src/commands/update_check.rs : parse_version, is_newer, should_check,
                                 check_and_notify
  src/commands/upgrade.rs      : UPGRADE_REGISTRY, compare_versions,
                                 get_pending_upgrades, apply_upgrades,
                                 check_upgrade_compatibility, the fleet
                                 upgrade loop of upgrade_all_projects
  src/database.rs              : get_schema_version, set_schema_version
  src/auto_update.rs           : check_and_apply_pending
  src/main.rs                  : the startup handling of the pending-update
                                 check

Rust strings are modelled as Lean String (split into List Char where the
code splits on '.'); u32 integers as Nat with an explicit 2^32 range
check in the component parser; SQLite stores as an explicit structure of
tables / indexes / columns / metadata rows; fallible operations return
Except.
-/

namespace AiProj

/-! ### Version component parsing

`src/commands/update_check.rs` and `src/commands/upgrade.rs` both split a
version string on '.' and parse each component with Rust's
`str::parse::<u32>()`, which accepts an optional leading '+', requires at
least one ASCII digit, and fails on overflow past u32::MAX. -/

/-- Rust `str.split('.')` on a string viewed as a character list: splitting
the empty string yields one empty component. -/
def split_dot : List Char → List (List Char)
  | [] => [[]]
  | c :: rest =>
    if c = '.' then [] :: split_dot rest
    else
      match split_dot rest with
      | g :: gs => (c :: g) :: gs
      | [] => [[c]]

/-- Rust `str::parse::<u32>()`: optional leading '+', then one or more ASCII
digits, value below 2^32. -/
def parse_u32 (s : List Char) : Option Nat :=
  let t := match s with
    | '+' :: rest => rest
    | _ => s
  if t ≠ [] ∧ t.all Char.isDigit then
    let n := t.foldl (fun acc c => acc * 10 + (c.toNat - 48)) 0
    if n < 4294967296 then some n else none
  else none

/-! ### update_check.rs: parse_version and is_newer -/

/-- `parse_version` from src/commands/update_check.rs lines 95-109: three or
more components take the first three; exactly two components zero-pad the
patch; otherwise None. -/
def parse_version (version : String) : Option (Nat × Nat × Nat) :=
  match split_dot version.toList with
  | p0 :: p1 :: p2 :: _ =>
    (parse_u32 p0).bind fun major =>
      (parse_u32 p1).bind fun minor =>
        (parse_u32 p2).map fun patch => (major, minor, patch)
  | [p0, p1] =>
    (parse_u32 p0).bind fun major =>
      (parse_u32 p1).map fun minor => (major, minor, 0)
  | _ => none

/-- Rust's derived lexicographic `Ord` on the `(u32, u32, u32)` triple,
specialised to the strict `>` comparison used by `is_newer`. -/
def triple_lt (a b : Nat × Nat × Nat) : Bool :=
  decide (a.1 < b.1 ∨ (a.1 = b.1 ∧
    (a.2.1 < b.2.1 ∨ (a.2.1 = b.2.1 ∧ a.2.2 < b.2.2))))

/-- `is_newer` from src/commands/update_check.rs lines 112-119: true when
both strings parse and latest's triple is lexicographically greater than
current's; false on any parse failure. -/
def is_newer (current latest : String) : Bool :=
  match parse_version current, parse_version latest with
  | some c, some l => triple_lt c l
  | _, _ => false

/-! ### upgrade.rs: compare_versions and version part lists -/

/-- Rust `Ord::cmp` on u32 values. -/
def cmp_nat (a b : Nat) : Ordering :=
  if a < b then .lt else if b < a then .gt else .eq

/-- `compare_versions` from src/commands/upgrade.rs lines 436-444: compare
componentwise over the zipped lists, then by length.  (Comparing the
remaining lengths after the common equal prefix is the same as comparing
the full lengths, since the consumed prefix has equal length on both
sides.) -/
def compare_versions : List Nat → List Nat → Ordering
  | a :: xs, b :: ys =>
    match cmp_nat a b with
    | .eq => compare_versions xs ys
    | o => o
  | xs, ys => cmp_nat xs.length ys.length

/-- The `split('.').filter_map(|s| s.parse().ok())` idiom used by
`get_pending_upgrades`. -/
def version_parts (s : String) : List Nat :=
  (split_dot s.toList).filterMap parse_u32

/-- Rust `ordering <= Ordering::Equal`, i.e. not Greater. -/
def ordering_le (o : Ordering) : Bool :=
  match o with
  | .gt => false
  | _ => true

/-! ### Basic facts about the comparator -/

theorem cmp_nat_eq_lt {a b : Nat} : cmp_nat a b = .lt ↔ a < b := by
  unfold cmp_nat
  split
  · simp_all
  · split <;> simp_all

theorem cmp_nat_eq_gt {a b : Nat} : cmp_nat a b = .gt ↔ b < a := by
  unfold cmp_nat
  split
  · constructor
    · intro h; cases h
    · omega
  · split <;> simp_all

theorem cmp_nat_eq_eq {a b : Nat} : cmp_nat a b = .eq ↔ a = b := by
  unfold cmp_nat
  split
  · constructor
    · intro h; cases h
    · omega
  · split
    · constructor
      · intro h; cases h
      · omega
    · simp_all; omega

theorem compare_versions_nil_right_ne_gt (c : List Nat) :
    compare_versions [] c ≠ .gt := by
  have h : compare_versions [] c = cmp_nat 0 c.length := by
    cases c <;> rfl
  rw [h]
  intro hgt
  rw [cmp_nat_eq_gt] at hgt
  omega

theorem compare_versions_cons_nil (a : Nat) (xs : List Nat) :
    compare_versions (a :: xs) [] = .gt := by
  have h : compare_versions (a :: xs) [] = cmp_nat (xs.length + 1) 0 := rfl
  rw [h, cmp_nat_eq_gt]
  omega

/-- Transitivity of the non-strict version ordering used by
`get_pending_upgrades` (`cmp a b ≤ Ordering::Equal`, i.e. not Greater). -/
theorem compare_versions_trans :
    ∀ (a b c : List Nat), compare_versions a b ≠ .gt →
      compare_versions b c ≠ .gt → compare_versions a c ≠ .gt := by
  intro a
  induction a with
  | nil => intro b c _ _; exact compare_versions_nil_right_ne_gt c
  | cons x xs ih =>
    intro b c h1 h2
    cases b with
    | nil => exact absurd (compare_versions_cons_nil x xs) h1
    | cons y ys =>
      cases c with
      | nil => exact absurd (compare_versions_cons_nil y ys) h2
      | cons z zs =>
        have e1 : compare_versions (x :: xs) (y :: ys) =
            match cmp_nat x y with
            | .eq => compare_versions xs ys
            | o => o := rfl
        have e2 : compare_versions (y :: ys) (z :: zs) =
            match cmp_nat y z with
            | .eq => compare_versions ys zs
            | o => o := rfl
        have e3 : compare_versions (x :: xs) (z :: zs) =
            match cmp_nat x z with
            | .eq => compare_versions xs zs
            | o => o := rfl
        rw [e1] at h1
        rw [e2] at h2
        rw [e3]
        cases hxy : cmp_nat x y with
        | gt => rw [hxy] at h1; exact absurd rfl h1
        | lt =>
          cases hyz : cmp_nat y z with
          | gt => rw [hyz] at h2; exact absurd rfl h2
          | lt =>
            have : x < z := by
              have := cmp_nat_eq_lt.mp hxy
              have := cmp_nat_eq_lt.mp hyz
              omega
            rw [cmp_nat_eq_lt.mpr this]
            intro h; cases h
          | eq =>
            have hyz' := cmp_nat_eq_eq.mp hyz
            have : x < z := by
              have := cmp_nat_eq_lt.mp hxy
              omega
            rw [cmp_nat_eq_lt.mpr this]
            intro h; cases h
        | eq =>
          have hxy' := cmp_nat_eq_eq.mp hxy
          rw [hxy] at h1
          cases hyz : cmp_nat y z with
          | gt => rw [hyz] at h2; exact absurd rfl h2
          | lt =>
            have : x < z := by
              have := cmp_nat_eq_lt.mp hyz
              omega
            rw [cmp_nat_eq_lt.mpr this]
            intro h; cases h
          | eq =>
            have hyz' := cmp_nat_eq_eq.mp hyz
            rw [hyz] at h2
            have : x = z := by omega
            rw [cmp_nat_eq_eq.mpr this]
            exact ih ys zs h1 h2

theorem ordering_le_iff (o : Ordering) : ordering_le o = true ↔ o ≠ .gt := by
  cases o <;> simp [ordering_le]

theorem triple_lt_irrefl (p : Nat × Nat × Nat) : triple_lt p p = false := by
  simp [triple_lt]

/-! ### The SQLite store model

An abstract state of a project's tracking.db: the schema objects the
registry's statements touch (tables, indexes, columns) plus the rows of
the `project_meta` key/value table.  Virtual tables appear in
`sqlite_master` with type 'table', so they live in `tables` too. -/

structure Store where
  tables : List String
  indexes : List String
  columns : List (String × String)
  meta : List (String × String)
deriving DecidableEq

/-- The shape of every `verify` query in the registry: either a
`SELECT 1 FROM sqlite_master WHERE type=kind AND name=objName` probe or a
`SELECT col FROM table LIMIT 0` probe. -/
inductive VerifyQuery
  | selectMaster (kind objName : String)
  | selectColLimit0 (table col : String)
deriving DecidableEq

/-- Whether SQLite can prepare the verify statement against the store: the
sqlite_master probes always prepare; the column probe prepares only when
the table and the column both exist. -/
def prepares (q : VerifyQuery) (s : Store) : Bool :=
  match q with
  | .selectMaster _ _ => true
  | .selectColLimit0 table col =>
    s.tables.contains table && s.columns.contains (table, col)

/-- Number of rows the verify statement returns when stepped: one for a
matching sqlite_master entry, zero otherwise; always zero for the
`LIMIT 0` column probe. -/
def row_count (q : VerifyQuery) (s : Store) : Nat :=
  match q with
  | .selectMaster kind objName =>
    if (kind = "table" ∧ s.tables.contains objName)
        ∨ (kind = "index" ∧ s.indexes.contains objName) then 1 else 0
  | .selectColLimit0 _ _ => 0

/-- rusqlite `Connection::query_row(q, [], |_| Ok(())).is_ok()`: true only
when the statement prepares and yields at least one row (zero rows give
`QueryReturnedNoRows`). -/
def query_row_ok (q : VerifyQuery) (s : Store) : Bool :=
  prepares q s && decide (row_count q s > 0)

/-- rusqlite `Connection::execute(q, []).is_ok()`: Ok when the statement
prepares and steps directly to DONE (zero rows); a returned row gives
`ExecuteReturnedResults`. -/
def execute_ok (q : VerifyQuery) (s : Store) : Bool :=
  prepares q s && decide (row_count q s = 0)

/-! ### Semantics of the registry's SQL statements -/

/-- `CREATE TABLE IF NOT EXISTS name (cols...)` (also used for the FTS5
virtual table, which registers in sqlite_master the same way). Never
fails. -/
def create_table_if_not_exists (name : String) (cols : List String)
    (s : Store) : Except String Store :=
  if s.tables.contains name then .ok s
  else .ok { s with
    tables := s.tables ++ [name],
    columns := s.columns ++ cols.map fun c => (name, c) }

/-- `CREATE INDEX IF NOT EXISTS name ON table (...)`: a no-op when the
index exists; fails when the indexed table is missing. -/
def create_index_if_not_exists (name table : String)
    (s : Store) : Except String Store :=
  if s.indexes.contains name then .ok s
  else if s.tables.contains table then
    .ok { s with indexes := s.indexes ++ [name] }
  else .error ("no such table: " ++ table)

/-- `ALTER TABLE table ADD COLUMN col ...`: fails when the table is missing
or the column already exists (SQLite: duplicate column name). -/
def alter_table_add_column (table col : String)
    (s : Store) : Except String Store :=
  if s.tables.contains table then
    if s.columns.contains (table, col) then
      .error ("duplicate column name: " ++ col)
    else .ok { s with columns := s.columns ++ [(table, col)] }
  else .error ("no such table: " ++ table)

/-! ### The migration registry (src/commands/upgrade.rs lines 28-94) -/

/-- `SchemaChange` with the `sql` string replaced by its semantics over the
store model and the `verify` string by its query shape. -/
structure SchemaChange where
  risk : String
  description : String
  op : Store → Except String Store
  verify : VerifyQuery

/-- `SchemaUpgrade` from src/commands/upgrade.rs lines 21-25. -/
structure SchemaUpgrade where
  from_version : String
  to_version : String
  changes : List SchemaChange

/-- Registry change 1: CREATE TABLE IF NOT EXISTS context_snapshots. -/
def change_context_snapshots : SchemaChange where
  risk := "safe"
  description := "Track context snapshots for delta updates"
  op := create_table_if_not_exists "context_snapshots"
    ["snapshot_id", "session_id", "created_at", "snapshot_type",
     "content_hash", "item_counts"]
  verify := .selectMaster "table" "context_snapshots"

/-- Registry change 2: CREATE TABLE IF NOT EXISTS compressed_sessions. -/
def change_compressed_sessions : SchemaChange where
  risk := "safe"
  description := "Store compressed session summaries"
  op := create_table_if_not_exists "compressed_sessions"
    ["compression_id", "created_at", "session_ids", "date_range_start",
     "date_range_end", "compressed_summary", "original_token_estimate",
     "compressed_token_estimate"]
  verify := .selectMaster "table" "compressed_sessions"

/-- Registry change 3: CREATE INDEX IF NOT EXISTS
idx_context_snapshots_session ON context_snapshots(session_id). -/
def change_idx_context_snapshots : SchemaChange where
  risk := "safe"
  description := "Index for context snapshot lookups"
  op := create_index_if_not_exists "idx_context_snapshots_session"
    "context_snapshots"
  verify := .selectMaster "index" "idx_context_snapshots_session"

/-- Registry change 4: ALTER TABLE sessions ADD COLUMN full_context_shown,
verified by `SELECT full_context_shown FROM sessions LIMIT 0`. -/
def change_full_context_shown : SchemaChange where
  risk := "safe"
  description := "Track whether full context was shown this session"
  op := alter_table_add_column "sessions" "full_context_shown"
  verify := .selectColLimit0 "sessions" "full_context_shown"

/-- Registry change 5: CREATE VIRTUAL TABLE IF NOT EXISTS tracking_fts
USING fts5(...). -/
def change_tracking_fts : SchemaChange where
  risk := "safe"
  description :=
    "FTS5 virtual table for full-text search across decisions, notes, tasks"
  op := create_table_if_not_exists "tracking_fts"
    ["content", "table_name", "record_id"]
  verify := .selectMaster "table" "tracking_fts"

/-- `UPGRADE_REGISTRY` from src/commands/upgrade.rs lines 28-94. -/
def UPGRADE_REGISTRY : List SchemaUpgrade :=
  [{ from_version := "1.0", to_version := "1.1",
     changes := [change_context_snapshots, change_compressed_sessions,
                 change_idx_context_snapshots] },
   { from_version := "1.1", to_version := "1.2",
     changes := [change_full_context_shown] },
   { from_version := "1.2", to_version := "1.3",
     changes := [change_tracking_fts] }]

/-- `SCHEMA_VERSION` from src/main.rs line 24. -/
def SCHEMA_VERSION : String := "1.3"

/-! ### database.rs: schema version metadata -/

/-- `get_schema_version` from src/database.rs lines 27-39: the first
project_meta row with key 'schema_version', or None when no row matches
(QueryReturnedNoRows). -/
def get_schema_version (s : Store) : Option String :=
  (s.meta.find? fun kv => kv.1 == "schema_version").map fun kv => kv.2

/-- `INSERT OR REPLACE` into a key-primary two-column table: replace the
existing row for the key or append a fresh one. -/
def insert_or_replace :
    List (String × String) → String → String → List (String × String)
  | [], k, v => [(k, v)]
  | kv :: rest, k, v =>
    if kv.1 = k then (k, v) :: rest else kv :: insert_or_replace rest k v

/-- `set_schema_version` from src/database.rs lines 42-48. -/
def set_schema_version (s : Store) (version : String) : Store :=
  { s with meta := insert_or_replace s.meta "schema_version" version }

/-! ### upgrade.rs: pending upgrade selection and the applier -/

/-- `get_pending_upgrades` from src/commands/upgrade.rs lines 410-433:
keep every registry batch with current <= from and to <= target under
`compare_versions` of the filter-mapped parts. -/
def get_pending_upgrades (current target : String) : List SchemaUpgrade :=
  let current_parts := version_parts current
  let target_parts := version_parts target
  UPGRADE_REGISTRY.filter fun u =>
    ordering_le (compare_versions current_parts (version_parts u.from_version))
      && ordering_le (compare_versions (version_parts u.to_version) target_parts)

/-- The inner loop of `apply_upgrades` (lines 381-391): for each change,
skip it when the query_row probe reports it applied, otherwise run its
operation; stop at the first failing operation, returning the store as
mutated so far together with the failing change. -/
def run_changes : List SchemaChange → Store → Store × Option SchemaChange
  | [], s => (s, none)
  | c :: rest, s =>
    if query_row_ok c.verify s then run_changes rest s
    else
      match c.op s with
      | .ok s' => run_changes rest s'
      | .error _ => (s, some c)

/-- The companion config.json next to the store: absent, present but not
parseable as JSON, or parseable with an optional schema_version field. -/
inductive ConfigFile
  | absent
  | invalid
  | valid (schemaVersion : Option String)
deriving DecidableEq

/-- A store together with its companion config file. -/
structure World where
  store : Store
  config : ConfigFile
deriving DecidableEq

/-- Filesystem outcomes for the config read-modify-write step; the
in-store SQL never consults these. -/
structure FsEnv where
  cfgReadOk : Bool
  cfgWriteOk : Bool
deriving DecidableEq

/-- The changes `apply_upgrades` iterates for a given store: every change
of every batch pending between the store's recorded version (defaulting
to "1.0" when absent) and SCHEMA_VERSION, in registry order. -/
def pending_changes (s : Store) : List SchemaChange :=
  let current := (get_schema_version s).getD "1.0"
  (get_pending_upgrades current SCHEMA_VERSION).flatMap fun u => u.changes

/-- `apply_upgrades` from src/commands/upgrade.rs lines 374-407: recompute
the pending batches from the store's recorded version (defaulting to
"1.0"), run every not-yet-applied change, abort on the first failure with
the failing description, then record SCHEMA_VERSION in project_meta and
finally rewrite the companion config file (read and write failures there
propagate; an unparseable config is skipped silently). -/
def apply_upgrades (w : World) (env : FsEnv) : World × Except String Unit :=
  match run_changes (pending_changes w.store) w.store with
  | (s', some c) =>
    ({ w with store := s' }, .error ("Failed to apply: " ++ c.description))
  | (s', none) =>
    let s2 := set_schema_version s' SCHEMA_VERSION
    match w.config with
    | .absent => ({ store := s2, config := .absent }, .ok ())
    | .invalid =>
      if env.cfgReadOk then ({ store := s2, config := .invalid }, .ok ())
      else ({ store := s2, config := .invalid },
            .error "Failed to read config file")
    | .valid old =>
      if env.cfgReadOk then
        if env.cfgWriteOk then
          ({ store := s2, config := .valid (some SCHEMA_VERSION) }, .ok ())
        else ({ store := s2, config := .valid old },
              .error "Failed to write config file")
      else ({ store := s2, config := .valid old },
            .error "Failed to read config file")

/-! ### upgrade.rs: the compatibility checker -/

/-- `ChangeInfo` from src/commands/upgrade.rs lines 108-112. -/
structure ChangeInfo where
  description : String
  risk : String
  status : String
deriving DecidableEq

/-- `UpgradeCompatibility` from src/commands/upgrade.rs lines 97-105. -/
structure UpgradeCompatibility where
  can_upgrade : Bool
  current_version : String
  target_version : String
  pending_upgrades : List SchemaUpgrade
  safe_changes : List ChangeInfo
  warnings : List String
  errors : List String

/-- `check_upgrade_compatibility` from src/commands/upgrade.rs lines
315-371: read-only classification of each pending change.  The status
probe first tries `conn.execute(verify)` (Ok exactly when the statement
prepares and returns no rows) and then `conn.query_row(verify)` (Ok
exactly when it prepares and returns a row). -/
def check_upgrade_compatibility (s : Store) : UpgradeCompatibility :=
  let current := (get_schema_version s).getD "1.0"
  let target := SCHEMA_VERSION
  if current = target then
    { can_upgrade := false, current_version := current,
      target_version := target, pending_upgrades := [], safe_changes := [],
      warnings := [], errors := [] }
  else
    let pending := get_pending_upgrades current target
    if pending.isEmpty then
      { can_upgrade := false, current_version := current,
        target_version := target, pending_upgrades := [], safe_changes := [],
        warnings := ["No upgrade path found from v" ++ current ++ " to v"
                     ++ target],
        errors := [] }
    else
      { can_upgrade := true, current_version := current,
        target_version := target, pending_upgrades := pending,
        safe_changes := (pending.flatMap fun u => u.changes).map fun c =>
          { description := c.description, risk := c.risk,
            status :=
              if execute_ok c.verify s then "already_applied"
              else if query_row_ok c.verify s then "already_applied"
              else "pending" },
        warnings := [], errors := [] }

/-! ### upgrade.rs: the fleet orchestrator (upgrade_all_projects)

The per-project filesystem and store environment is abstracted into the
outcome of each probe the loop performs: path existence, tracking.db
existence, the compatibility check, and (for projects reaching the second
loop) the result of `apply_upgrades`. -/

/-- What the first loop of `upgrade_all_projects` (lines 140-168) observes
for one registered project. -/
inductive ProjStatus
  | pathMissing
  | dbMissing
  | checkFailed (e : String)
  | checked (compat : UpgradeCompatibility)

/-- One registered project: its name, what the bucketing loop observes, and
the outcome `apply_upgrades` would produce for it. -/
structure FleetProject where
  name : String
  status : ProjStatus
  applyResult : Except String Unit

/-- The bucketing loop of `upgrade_all_projects` (lines 140-168): sort every
project into up-to-date (name, version), upgradeable, or errors
(name, message). -/
def bucket_projects (ps : List FleetProject) :
    List (String × String) × List FleetProject × List (String × String) :=
  match ps with
  | [] => ([], [], [])
  | p :: rest =>
    let (utd, ups, errs) := bucket_projects rest
    match p.status with
    | .pathMissing => (utd, ups, (p.name, "Path not found") :: errs)
    | .dbMissing => (utd, ups, (p.name, "No tracking.db") :: errs)
    | .checkFailed e => (utd, ups, (p.name, e) :: errs)
    | .checked compat =>
      if compat.current_version = compat.target_version then
        ((p.name, compat.current_version) :: utd, ups, errs)
      else if compat.can_upgrade then (utd, p :: ups, errs)
      else (utd, ups,
            (p.name, String.intercalate "; " compat.errors) :: errs)

/-- True when the project's `apply_upgrades` call succeeds. -/
def apply_ok (p : FleetProject) : Bool :=
  match p.applyResult with
  | .ok _ => true
  | .error _ => false

/-- The upgrade loop of `upgrade_all_projects` (lines 235-254): call the
applier for every upgradeable project in order, count successes and
failures, never aborting on a failure.  Returns (success_count,
fail_count, the names attempted in order). -/
def run_fleet_upgrades : List FleetProject → Nat × Nat × List String
  | [] => (0, 0, [])
  | p :: rest =>
    let (s, f, names) := run_fleet_upgrades rest
    match p.applyResult with
    | .ok _ => (s + 1, f, p.name :: names)
    | .error _ => (s, f + 1, p.name :: names)

/-! ### update_check.rs: the release poller -/

/-- `CHECK_INTERVAL_HOURS` from src/commands/update_check.rs line 17. -/
def CHECK_INTERVAL_HOURS : Nat := 24

/-- `should_check` from src/commands/update_check.rs lines 39-52: check
when the cache file is absent, when its modification time cannot be read,
or when its age exceeds the interval. -/
def should_check (cacheExists mtimeOk : Bool) (elapsedSecs : Nat) : Bool :=
  if !cacheExists then true
  else if mtimeOk then decide (elapsedSecs > CHECK_INTERVAL_HOURS * 3600)
  else true

/-- The environment `check_and_notify` observes: cache path resolution,
cache file state and age, the parsed cache content (latest version and
optional download url; None when the file is unreadable or unparseable),
the network fetch outcome, the running binary's version, and the staging
state consulted before spawning a background download. -/
structure PollEnv where
  cachePathOk : Bool
  cacheExists : Bool
  mtimeOk : Bool
  elapsedSecs : Nat
  cacheContent : Option (String × Option String)
  fetchResult : Option (String × String)
  currentVersion : String
  platformSupported : Bool
  alreadyStaged : Bool
deriving DecidableEq

/-- Observable outcome of one `check_and_notify` run: the returned Bool,
whether a network fetch was attempted, the cache value written (if
write_cache was invoked), and whether a background download was
spawned. -/
structure PollOutcome where
  available : Bool
  fetched : Bool
  wrote : Option (String × Option String)
  startedDownload : Bool
deriving DecidableEq

/-- `check_and_notify` from src/commands/update_check.rs lines 230-303:
fresh cache short-circuits the network; a stale or absent cache triggers a
fetch whose success overwrites the cache and whose failure falls back to
the cached value; with no usable value the function reports false.  It
never returns an error to its caller. -/
def check_and_notify (env : PollEnv) : PollOutcome :=
  if !env.cachePathOk then ⟨false, false, none, false⟩
  else
    let finish := fun (latest : String) (fetched : Bool)
        (wrote : Option (String × Option String)) =>
      if is_newer env.currentVersion latest then
        ⟨true, fetched, wrote,
         !env.alreadyStaged && env.platformSupported⟩
      else (⟨false, fetched, wrote, false⟩ : PollOutcome)
    if should_check env.cacheExists env.mtimeOk env.elapsedSecs then
      match env.fetchResult with
      | some (v, u) => finish v true (some (v, some u))
      | none =>
        match env.cacheContent with
        | some (lv, _) => finish lv true none
        | none => ⟨false, true, none, false⟩
    else
      match env.cacheContent with
      | some (lv, _) => finish lv false none
      | none => ⟨false, false, none, false⟩

/-! ### auto_update.rs: the startup swap -/

/-- The filesystem environment `check_and_apply_pending` runs against. -/
structure SwapEnv where
  pendingBinaryExists : Bool
  parentMetaOk : Bool
  ownerWritable : Bool
  versionFile : Option String
  pendingMetaOk : Bool
  pendingLen : Nat
  renameOk : Bool
  renameErr : String
  copyOk : Bool
  setPermsOk : Bool
  reexecOk : Bool
  currentVersion : String
deriving DecidableEq

/-- Observable outcome of `check_and_apply_pending`: the returned value
(Ok true stands for the terminal re-exec-and-exit path), whether the
staging directory was removed, whether the installed binary was replaced,
and everything printed for the user. -/
structure SwapOutcome where
  result : Except String Bool
  stagingRemoved : Bool
  binaryReplaced : Bool
  messages : List String

/-- `check_and_apply_pending` from src/auto_update.rs lines 15-101: no
pending binary means a normal start; an unreadable parent metadata or
staged-binary metadata propagates an error; a non-writable install
directory or an empty staged payload discards the stage and continues; a
failed rename falls back to copy, and when the copy also fails the stage
is discarded and the original rename error is returned; on success the
permissions are fixed, the stage is removed, a one-line notice is printed
and the process re-executes itself. -/
def check_and_apply_pending (env : SwapEnv) : SwapOutcome :=
  if !env.pendingBinaryExists then ⟨.ok false, false, false, []⟩
  else if !env.parentMetaOk then
    ⟨.error "failed to read install directory metadata", false, false, []⟩
  else if !env.ownerWritable then ⟨.ok false, true, false, []⟩
  else
    let new_version := env.versionFile.getD "unknown"
    if !env.pendingMetaOk then
      ⟨.error "failed to read staged binary metadata", false, false, []⟩
    else if env.pendingLen = 0 then ⟨.ok false, true, false, []⟩
    else if env.renameOk || env.copyOk then
      if !env.setPermsOk then
        ⟨.error "failed to set permissions", false, true, []⟩
      else
        let notice := "Updated proj " ++ env.currentVersion ++ " -> "
          ++ new_version
        if env.reexecOk then ⟨.ok true, true, true, [notice]⟩
        else ⟨.error "Failed to re-execute after update", true, true,
              [notice]⟩
    else ⟨.error env.renameErr, true, false, []⟩

/-- The startup handling in src/main.rs lines 30-33:
`if let Ok(true) = check_and_apply_pending()` returns, every other result
(including an Err, which is silently discarded) falls through to normal
command dispatch. -/
def main_continues_normally (o : SwapOutcome) : Bool :=
  match o.result with
  | .ok true => false
  | _ => true

/-! ## Helper lemmas -/

theorem registry_version_intervals :
    ∀ u ∈ UPGRADE_REGISTRY,
      compare_versions (version_parts u.from_version)
        (version_parts u.to_version) ≠ .gt ∧
      compare_versions (version_parts u.to_version)
        (version_parts u.from_version) = .gt := by
  intro u hu
  simp only [UPGRADE_REGISTRY, List.mem_cons, List.not_mem_nil, or_false]
    at hu
  rcases hu with h | h | h <;> subst h <;> exact ⟨by decide, by decide⟩

theorem mem_get_pending_upgrades {c t : String} {u : SchemaUpgrade} :
    u ∈ get_pending_upgrades c t ↔
      u ∈ UPGRADE_REGISTRY ∧
      compare_versions (version_parts c) (version_parts u.from_version)
        ≠ .gt ∧
      compare_versions (version_parts u.to_version) (version_parts t)
        ≠ .gt := by
  unfold get_pending_upgrades
  rw [List.mem_filter]
  simp only [Bool.and_eq_true, ordering_le_iff]

/-! ## Claim theorems -/

/-- C4: for all version strings current and target, get_pending_upgrades
returns exactly the registry batches with from_version >= current and
to_version <= target under the version ordering, as a sublist of the
registry (preserving registry order); get_pending_upgrades v v is empty
for every v, and no returned batch has from_version > target. -/
theorem get_pending_upgrades_selection :
    (∀ (c t : String) (u : SchemaUpgrade),
        u ∈ get_pending_upgrades c t ↔
          u ∈ UPGRADE_REGISTRY ∧
          compare_versions (version_parts c) (version_parts u.from_version)
            ≠ .gt ∧
          compare_versions (version_parts u.to_version) (version_parts t)
            ≠ .gt)
    ∧ (∀ c t : String,
        (get_pending_upgrades c t).Sublist UPGRADE_REGISTRY)
    ∧ (∀ v : String, get_pending_upgrades v v = [])
    ∧ (∀ (c t : String) (u : SchemaUpgrade),
        u ∈ get_pending_upgrades c t →
          compare_versions (version_parts u.from_version) (version_parts t)
            ≠ .gt) := by
  refine ⟨fun c t u => mem_get_pending_upgrades, ?_, ?_, ?_⟩
  · intro c t
    exact List.filter_sublist _
  · intro v
    refine List.filter_eq_nil_iff.mpr ?_
    intro u hu hpred
    rw [Bool.and_eq_true, ordering_le_iff, ordering_le_iff] at hpred
    have hto := (registry_version_intervals u hu).2
    exact absurd hto
      (compare_versions_trans _ _ _ hpred.2 hpred.1)
  · intro c t u hu
    rcases mem_get_pending_upgrades.mp hu with ⟨hreg, _, hto⟩
    exact compare_versions_trans _ _ _
      (registry_version_intervals u hreg).1 hto

/-- C4 witness: the first registry batch is selected for the full "1.0" to
"1.3" range (so its from_version does not exceed the target), and the
pending list for equal versions is empty. -/
theorem get_pending_upgrades_selection_witness :
    get_pending_upgrades "1.3" "1.3" = [] ∧
    compare_versions (version_parts "1.0") (version_parts "1.3")
      ≠ .gt := by
  constructor
  · exact get_pending_upgrades_selection.2.2.1 "1.3"
  · exact get_pending_upgrades_selection.2.2.2 "1.0" "1.3"
      { from_version := "1.0", to_version := "1.1",
        changes := [change_context_snapshots, change_compressed_sessions,
                    change_idx_context_snapshots] }
      (List.Mem.head _)

/-- C5: is_newer a b is true exactly when both strings parse and the parse
of a is lexicographically below the parse of b on the (major, minor,
patch) triple; is_newer a a is always false, and a parse failure on
either side yields false rather than an error. -/
theorem is_newer_matches_parse_order :
    ∀ a b : String,
      (is_newer a b = true ↔
        ∃ pa pb, parse_version a = some pa ∧ parse_version b = some pb ∧
          triple_lt pa pb = true)
      ∧ is_newer a a = false
      ∧ ((parse_version a = none ∨ parse_version b = none) →
          is_newer a b = false) := by
  intro a b
  refine ⟨?_, ?_, ?_⟩
  · cases ha : parse_version a <;> cases hb : parse_version b <;>
      simp [is_newer, ha, hb]
  · cases ha : parse_version a <;>
      simp [is_newer, ha, triple_lt_irrefl]
  · intro h
    rcases h with h | h <;>
      cases ha : parse_version a <;> cases hb : parse_version b <;>
        simp_all [is_newer]

/-- C5 witness: a concrete strictly-newer pair and a concrete parse
failure. -/
theorem is_newer_matches_parse_order_witness :
    is_newer "1.2.3" "1.2.4" = true ∧ is_newer "abc" "1.0.0" = false := by
  constructor
  · exact (is_newer_matches_parse_order "1.2.3" "1.2.4").1.mpr
      ⟨(1, 2, 3), (1, 2, 4), by decide, by decide, by decide⟩
  · exact (is_newer_matches_parse_order "abc" "1.0.0").2.2
      (Or.inl (by decide))

/-- C6 counterexample: the single-component string "1" fails to parse,
whereas the claim says it parses to (1, 0, 0). -/
theorem parse_version_single_component_fails :
    parse_version "1" = none ∧ parse_version "1" ≠ some (1, 0, 0) := by
  decide

/-- C6 (amended): parse_version zero-pads exactly-two-component numeric
strings to (major, minor, 0) and takes the first three components of
longer strings, ignoring the rest; it returns none when the string has a
single component or when one of the used components fails numeric
parsing. -/
theorem parse_version_component_behavior :
    ∀ s : String,
      ((split_dot s.toList).length = 1 → parse_version s = none)
      ∧ (∀ p0 p1, split_dot s.toList = [p0, p1] →
          ((∃ M m, parse_u32 p0 = some M ∧ parse_u32 p1 = some m ∧
              parse_version s = some (M, m, 0))
           ∨ ((parse_u32 p0 = none ∨ parse_u32 p1 = none) ∧
              parse_version s = none)))
      ∧ (∀ p0 p1 p2 rest, split_dot s.toList = p0 :: p1 :: p2 :: rest →
          ((∃ M m P, parse_u32 p0 = some M ∧ parse_u32 p1 = some m ∧
              parse_u32 p2 = some P ∧ parse_version s = some (M, m, P))
           ∨ ((parse_u32 p0 = none ∨ parse_u32 p1 = none ∨
               parse_u32 p2 = none) ∧ parse_version s = none))) := by
  intro s
  refine ⟨?_, ?_, ?_⟩
  · intro h
    rcases List.length_eq_one.mp h with ⟨x, hx⟩
    have hx' : split_dot s.data = [x] := hx
    simp [parse_version, hx']
  · intro p0 p1 hsp
    have hsp' : split_dot s.data = [p0, p1] := hsp
    cases h0 : parse_u32 p0 <;> cases h1 : parse_u32 p1 <;>
      simp [parse_version, hsp', h0, h1]
  · intro p0 p1 p2 rest hsp
    have hsp' : split_dot s.data = p0 :: p1 :: p2 :: rest := hsp
    cases h0 : parse_u32 p0 <;> cases h1 : parse_u32 p1 <;>
      cases h2 : parse_u32 p2 <;>
        simp [parse_version, hsp', h0, h1, h2]

/-- C6 witness: the amended behavior at the concrete strings "1" and
"1.2". -/
theorem parse_version_component_behavior_witness :
    parse_version "1" = none ∧ parse_version "1.2" = some (1, 2, 0) := by
  constructor
  · exact (parse_version_component_behavior "1").1 (by decide)
  · decide

/-! ### Meta-preservation of the registry's operations -/

theorem create_table_meta (name : String) (cols : List String)
    (s s' : Store) (h : create_table_if_not_exists name cols s = .ok s') :
    s'.meta = s.meta := by
  unfold create_table_if_not_exists at h
  split at h <;> cases h <;> rfl

theorem create_index_meta (name table : String) (s s' : Store)
    (h : create_index_if_not_exists name table s = .ok s') :
    s'.meta = s.meta := by
  unfold create_index_if_not_exists at h
  split at h
  · cases h; rfl
  · split at h <;> cases h; rfl

theorem alter_column_meta (table col : String) (s s' : Store)
    (h : alter_table_add_column table col s = .ok s') :
    s'.meta = s.meta := by
  unfold alter_table_add_column at h
  split at h
  · split at h <;> cases h; rfl
  · cases h

/-- Every operation in the registry leaves the project_meta rows (and in
particular the recorded schema version) untouched. -/
theorem registry_ops_preserve_meta :
    ∀ u ∈ UPGRADE_REGISTRY, ∀ c ∈ u.changes, ∀ s s',
      c.op s = .ok s' → s'.meta = s.meta := by
  intro u hu c hc s s' h
  simp only [UPGRADE_REGISTRY, List.mem_cons, List.not_mem_nil, or_false]
    at hu
  rcases hu with hb | hb | hb <;> subst hb <;>
    simp only [List.mem_cons, List.not_mem_nil, or_false] at hc
  · rcases hc with hc | hc | hc <;> subst hc
    · exact create_table_meta _ _ _ _ h
    · exact create_table_meta _ _ _ _ h
    · exact create_index_meta _ _ _ _ h
  · subst hc
    exact alter_column_meta _ _ _ _ h
  · subst hc
    exact create_table_meta _ _ _ _ h

/-- Running a list of meta-preserving changes preserves the meta rows,
whether or not the run aborts early. -/
theorem run_changes_meta (cs : List SchemaChange)
    (hcs : ∀ c ∈ cs, ∀ s s', c.op s = .ok s' → s'.meta = s.meta) :
    ∀ s, (run_changes cs s).1.meta = s.meta := by
  induction cs with
  | nil => intro s; rfl
  | cons c rest ih =>
    intro s
    have hc := hcs c (List.Mem.head _)
    have hrest : ∀ c' ∈ rest, ∀ s s', c'.op s = .ok s' → s'.meta = s.meta :=
      fun c' h' => hcs c' (List.Mem.tail _ h')
    unfold run_changes
    split
    · exact ih hrest s
    · cases hop : c.op s with
      | ok s' =>
        simp only [hop]
        rw [ih hrest s', hc s s' hop]
      | error e => simp only [hop]

/-- Every change the applier can iterate comes from a registry batch. -/
theorem pending_changes_sub (s : Store) :
    ∀ c ∈ pending_changes s, ∃ u ∈ UPGRADE_REGISTRY, c ∈ u.changes := by
  intro c hc
  unfold pending_changes at hc
  rcases List.mem_flatMap.mp hc with ⟨u, hu, hcu⟩
  exact ⟨u, (mem_get_pending_upgrades.mp hu).1, hcu⟩

/-! ### Concrete stores for the failing scenarios -/

/-- A store freshly initialised before the 1.1 to 1.2 migration: sessions
table present, no full_context_shown column yet. -/
def store_v1_1 : Store :=
  { tables := ["project_meta", "sessions"], indexes := [],
    columns := [], meta := [("schema_version", "1.1")] }

/-- The crash-mid-batch state: the ALTER TABLE of the 1.1 to 1.2 batch has
run (the column exists) but the process died before the new version was
recorded, so project_meta still says 1.1. -/
def store_crashed : Store :=
  { tables := ["project_meta", "sessions", "context_snapshots",
               "compressed_sessions"],
    indexes := ["idx_context_snapshots_session"],
    columns := [("sessions", "full_context_shown")],
    meta := [("schema_version", "1.1")] }

/-- A store fully migrated to 1.2 (all batch-1 and batch-2 objects in
place) whose recorded version is 1.2. -/
def store_v1_2 : Store :=
  { tables := ["project_meta", "sessions", "context_snapshots",
               "compressed_sessions"],
    indexes := ["idx_context_snapshots_session"],
    columns := [("sessions", "full_context_shown")],
    meta := [("schema_version", "1.2")] }

/-- A broken store at version 1.1 whose sessions table is missing, so the
1.1 to 1.2 ALTER TABLE fails. -/
def store_no_sessions : Store :=
  { tables := ["project_meta"], indexes := [], columns := [],
    meta := [("schema_version", "1.1")] }

/-- C1: the already_applied probe of the 1.1 to 1.2 step does NOT return
true after its operation has run — the applier probes it with query_row
against a LIMIT 0 statement, which never yields a row — so re-invoking
apply_upgrades after a crash mid-batch (column added, version not yet
recorded) re-runs the ALTER TABLE and aborts with a duplicate-column
error instead of skipping the step. -/
theorem apply_upgrades_rerun_after_crash_errors :
    change_full_context_shown.op store_v1_1 =
      .ok { store_v1_1 with columns := [("sessions", "full_context_shown")] }
    ∧ query_row_ok change_full_context_shown.verify
        { store_v1_1 with columns := [("sessions", "full_context_shown")] }
        = false
    ∧ (apply_upgrades ⟨store_crashed, .absent⟩ ⟨true, true⟩).2 =
        .error ("Failed to apply: " ++ change_full_context_shown.description)
    ∧ (apply_upgrades ⟨store_crashed, .absent⟩ ⟨true, true⟩).1 =
        ⟨store_crashed, .absent⟩ := by
  exact ⟨rfl, by decide, rfl, rfl⟩

/-- C2: a failing step aborts apply_upgrades immediately with an error
carrying the failing step's description, and neither the store's recorded
schema version nor the companion config file is touched. -/
theorem apply_upgrades_step_failure_aborts :
    ∀ (w : World) (env : FsEnv) (s' : Store) (c : SchemaChange),
      run_changes (pending_changes w.store) w.store = (s', some c) →
      apply_upgrades w env =
        ({ w with store := s' }, .error ("Failed to apply: " ++ c.description))
      ∧ s'.meta = w.store.meta
      ∧ get_schema_version s' = get_schema_version w.store
      ∧ ({ w with store := s' } : World).config = w.config := by
  intro w env s' c h
  have hmeta : s'.meta = w.store.meta := by
    have := run_changes_meta (pending_changes w.store) ?_ w.store
    · rw [h] at this
      exact this
    · intro ch hch s1 s2 hop
      rcases pending_changes_sub w.store ch hch with ⟨u, hu, hcu⟩
      exact registry_ops_preserve_meta u hu ch hcu s1 s2 hop
  refine ⟨?_, hmeta, ?_, rfl⟩
  · unfold apply_upgrades
    rw [h]
  · unfold get_schema_version
    rw [hmeta]

/-- C2 witness: on a 1.1 store whose sessions table is missing, the ALTER
TABLE step fails, apply_upgrades returns the step's description in its
error, and the store's version row and config file are unchanged. -/
theorem apply_upgrades_step_failure_aborts_witness :
    apply_upgrades ⟨store_no_sessions, .valid (some "1.1")⟩ ⟨true, true⟩ =
      (⟨store_no_sessions, .valid (some "1.1")⟩,
       .error "Failed to apply: Track whether full context was shown this session")
    ∧ store_no_sessions.meta = store_no_sessions.meta := by
  have h := apply_upgrades_step_failure_aborts
    ⟨store_no_sessions, .valid (some "1.1")⟩ ⟨true, true⟩
    store_no_sessions change_full_context_shown rfl
  exact ⟨h.1, h.2.1⟩

/-- C3 counterexample: with the store at 1.2 and a parseable config file,
a failing config write after the internal version has advanced makes
apply_upgrades return an error, not success, contradicting the claim that
the failure is treated as a warning. -/
theorem apply_upgrades_config_write_failure_is_error :
    (apply_upgrades ⟨store_v1_2, .valid (some "1.2")⟩ ⟨true, false⟩).2 =
      .error "Failed to write config file"
    ∧ (apply_upgrades ⟨store_v1_2, .valid (some "1.2")⟩ ⟨true, false⟩).2 ≠
      .ok ()
    ∧ get_schema_version
        (apply_upgrades ⟨store_v1_2, .valid (some "1.2")⟩ ⟨true, false⟩).1.store
      = some "1.3" := by
  refine ⟨rfl, ?_, rfl⟩
  intro hcontra
  have : (Except.error "Failed to write config file" :
      Except String Unit) = .ok () := by
    rw [← hcontra]
    rfl
  exact Except.noConfusion this

/-- The schema_version row written by set_schema_version is what
get_schema_version reads back. -/
theorem get_set_schema_version (s : Store) (v : String) :
    get_schema_version (set_schema_version s v) = some v := by
  unfold get_schema_version set_schema_version
  have : ∀ l : List (String × String),
      (insert_or_replace l "schema_version" v).find?
        (fun kv => kv.1 == "schema_version") = some ("schema_version", v) := by
    intro l
    induction l with
    | nil => simp [insert_or_replace]
    | cons kv rest ih =>
      by_cases hk : kv.1 = "schema_version"
      · simp [insert_or_replace, hk]
      · simp only [insert_or_replace, if_neg hk]
        rw [List.find?_cons_of_neg, ih]
        simp [hk]
  rw [this]
  rfl

/-- C3 (amended): when every pending step succeeds but the config-file
write fails, apply_upgrades propagates the write error instead of
reporting success; there is however no rollback — the store's internally
recorded version remains the target SCHEMA_VERSION and the config file
keeps its old content. -/
theorem apply_upgrades_config_write_failure_no_rollback :
    ∀ (w : World) (env : FsEnv) (s' : Store) (old : Option String),
      run_changes (pending_changes w.store) w.store = (s', none) →
      w.config = .valid old →
      env.cfgReadOk = true → env.cfgWriteOk = false →
      apply_upgrades w env =
        ({ store := set_schema_version s' SCHEMA_VERSION,
           config := .valid old }, .error "Failed to write config file")
      ∧ get_schema_version (apply_upgrades w env).1.store = some SCHEMA_VERSION := by
  intro w env s' old hrun hcfg hread hwrite
  have happly : apply_upgrades w env =
      ({ store := set_schema_version s' SCHEMA_VERSION,
         config := .valid old }, .error "Failed to write config file") := by
    unfold apply_upgrades
    rw [hrun, hcfg, hread, hwrite]
    simp
  refine ⟨happly, ?_⟩
  rw [happly]
  exact get_set_schema_version s' SCHEMA_VERSION

/-- The store_v1_2 state after the 1.2 to 1.3 batch has created the
tracking_fts virtual table. -/
def store_v1_2_after_fts : Store :=
  { tables := ["project_meta", "sessions", "context_snapshots",
               "compressed_sessions", "tracking_fts"],
    indexes := ["idx_context_snapshots_session"],
    columns := [("sessions", "full_context_shown"),
                ("tracking_fts", "content"), ("tracking_fts", "table_name"),
                ("tracking_fts", "record_id")],
    meta := [("schema_version", "1.2")] }

/-- C3 witness: the amended behavior at a concrete 1.2 store with a
parseable config and a failing write. -/
theorem apply_upgrades_config_write_failure_no_rollback_witness :
    apply_upgrades ⟨store_v1_2, .valid (some "1.2")⟩ ⟨true, false⟩ =
      ({ store := set_schema_version store_v1_2_after_fts SCHEMA_VERSION,
         config := .valid (some "1.2") }, .error "Failed to write config file")
    ∧ get_schema_version
        (apply_upgrades ⟨store_v1_2, .valid (some "1.2")⟩ ⟨true, false⟩).1.store
      = some SCHEMA_VERSION := by
  exact apply_upgrades_config_write_failure_no_rollback
    ⟨store_v1_2, .valid (some "1.2")⟩ ⟨true, false⟩
    store_v1_2_after_fts (some "1.2") rfl rfl rfl rfl

/-! ### C7: startup swap failures -/

/-- The swap environment where the rename fails and the copy fallback also
fails. -/
def swap_env_rename_copy_fail : SwapEnv :=
  { pendingBinaryExists := true, parentMetaOk := true, ownerWritable := true,
    versionFile := some "9.9.9", pendingMetaOk := true, pendingLen := 1,
    renameOk := false, renameErr := "rename failed: cross-device link",
    copyOk := false, setPermsOk := true, reexecOk := true,
    currentVersion := "1.0.0" }

/-- C7 counterexample: when both rename and copy fail, the stage is
discarded and startup continues, but nothing is printed for the user —
the rename error is only returned to main, which silently discards it, so
it is never surfaced to the user as the claim states. -/
theorem swap_rename_copy_failure_error_not_shown :
    (check_and_apply_pending swap_env_rename_copy_fail).result =
      .error "rename failed: cross-device link"
    ∧ (check_and_apply_pending swap_env_rename_copy_fail).stagingRemoved = true
    ∧ (check_and_apply_pending swap_env_rename_copy_fail).messages = []
    ∧ main_continues_normally
        (check_and_apply_pending swap_env_rename_copy_fail) = true := by
  exact ⟨rfl, rfl, rfl, rfl⟩

/-- C7 (amended): with a staged update present and metadata readable, each
enumerated swap failure — install directory not owner-writable, empty
staged payload, rename and copy both failing — removes the staging
directory and lets the process continue with the old binary; in the
rename-plus-copy case the original rename error is returned to main
(which discards it without showing it to the user) and the installed
binary is untouched. -/
theorem swap_failures_discard_stage_and_continue :
    ∀ env : SwapEnv,
      env.pendingBinaryExists = true → env.parentMetaOk = true →
      env.pendingMetaOk = true →
      (env.ownerWritable = false →
        check_and_apply_pending env = ⟨.ok false, true, false, []⟩
        ∧ main_continues_normally (check_and_apply_pending env) = true)
      ∧ (env.ownerWritable = true → env.pendingLen = 0 →
        check_and_apply_pending env = ⟨.ok false, true, false, []⟩
        ∧ main_continues_normally (check_and_apply_pending env) = true)
      ∧ (env.ownerWritable = true → env.pendingLen ≠ 0 →
          env.renameOk = false → env.copyOk = false →
        check_and_apply_pending env =
          ⟨.error env.renameErr, true, false, []⟩
        ∧ main_continues_normally (check_and_apply_pending env) = true) := by
  intro env hpb hpm hmm
  refine ⟨?_, ?_, ?_⟩
  · intro hw
    have he : check_and_apply_pending env = ⟨.ok false, true, false, []⟩ := by
      unfold check_and_apply_pending
      simp [hpb, hpm, hw]
    exact ⟨he, by rw [he]; rfl⟩
  · intro hw hlen
    have he : check_and_apply_pending env = ⟨.ok false, true, false, []⟩ := by
      unfold check_and_apply_pending
      simp [hpb, hpm, hmm, hw, hlen]
    exact ⟨he, by rw [he]; rfl⟩
  · intro hw hlen hre hco
    have he : check_and_apply_pending env =
        ⟨.error env.renameErr, true, false, []⟩ := by
      unfold check_and_apply_pending
      simp [hpb, hpm, hmm, hw, hlen, hre, hco]
    exact ⟨he, by rw [he]; rfl⟩

/-- The swap environment where the install directory is not
owner-writable. -/
def swap_env_not_writable : SwapEnv :=
  { pendingBinaryExists := true, parentMetaOk := true, ownerWritable := false,
    versionFile := some "9.9.9", pendingMetaOk := true, pendingLen := 1,
    renameOk := true, renameErr := "", copyOk := true, setPermsOk := true,
    reexecOk := true, currentVersion := "1.0.0" }

/-- C7 witness: the amended behavior at a concrete non-writable install
directory. -/
theorem swap_failures_discard_stage_and_continue_witness :
    check_and_apply_pending swap_env_not_writable =
      ⟨.ok false, true, false, []⟩
    ∧ main_continues_normally
        (check_and_apply_pending swap_env_not_writable) = true := by
  exact (swap_failures_discard_stage_and_continue
    swap_env_not_writable rfl rfl rfl).1 rfl

/-! ### C8: the release poller's cache discipline -/

/-- C8: a cache younger than the 24-hour interval is used without any
network fetch; a stale or absent cache triggers a fetch whose success
overwrites the cache and whose failure falls back to the cached value;
with no usable cache the check reports no update; the function always
returns a plain outcome, never an error. -/
theorem check_and_notify_cache_discipline :
    ∀ env : PollEnv, env.cachePathOk = true →
      (env.cacheExists = true → env.mtimeOk = true →
        env.elapsedSecs ≤ CHECK_INTERVAL_HOURS * 3600 →
        (check_and_notify env).fetched = false
        ∧ (∀ lv du, env.cacheContent = some (lv, du) →
            (check_and_notify env).available =
              is_newer env.currentVersion lv)
        ∧ (env.cacheContent = none →
            check_and_notify env = ⟨false, false, none, false⟩))
      ∧ (should_check env.cacheExists env.mtimeOk env.elapsedSecs = true →
          ∀ v u, env.fetchResult = some (v, u) →
            (check_and_notify env).wrote = some (v, some u)
            ∧ (check_and_notify env).fetched = true
            ∧ (check_and_notify env).available =
                is_newer env.currentVersion v)
      ∧ (should_check env.cacheExists env.mtimeOk env.elapsedSecs = true →
          env.fetchResult = none →
          ∀ lv du, env.cacheContent = some (lv, du) →
            (check_and_notify env).wrote = none
            ∧ (check_and_notify env).available =
                is_newer env.currentVersion lv)
      ∧ (env.fetchResult = none → env.cacheContent = none →
          (check_and_notify env).available = false
          ∧ (check_and_notify env).wrote = none) := by
  intro env hpath
  have hfresh : env.cacheExists = true → env.mtimeOk = true →
      env.elapsedSecs ≤ CHECK_INTERVAL_HOURS * 3600 →
      should_check env.cacheExists env.mtimeOk env.elapsedSecs = false := by
    intro hce hmt hel
    unfold should_check
    rw [hce, hmt]
    simp only [Bool.not_true, Bool.false_eq_true, if_false, if_true]
    simp only [decide_eq_false_iff_not]
    omega
  refine ⟨?_, ?_, ?_, ?_⟩
  · intro hce hmt hel
    have hsc := hfresh hce hmt hel
    refine ⟨?_, ?_, ?_⟩
    · unfold check_and_notify
      rw [hpath, hsc]
      cases hcc : env.cacheContent with
      | none => rfl
      | some p =>
        rcases p with ⟨lv, du⟩
        simp only
        cases hn : is_newer env.currentVersion lv <;> simp [hn]
    · intro lv du hcc
      unfold check_and_notify
      rw [hpath, hsc, hcc]
      cases hn : is_newer env.currentVersion lv <;> simp [hn]
    · intro hcc
      unfold check_and_notify
      rw [hpath, hsc, hcc]
      rfl
  · intro hsc v u hf
    unfold check_and_notify
    rw [hpath, hsc, hf]
    cases hn : is_newer env.currentVersion v <;> simp [hn]
  · intro hsc hf lv du hcc
    unfold check_and_notify
    rw [hpath, hsc, hf, hcc]
    cases hn : is_newer env.currentVersion lv <;> simp [hn]
  · intro hf hcc
    unfold check_and_notify
    rw [hpath, hf, hcc]
    cases hsc : should_check env.cacheExists env.mtimeOk env.elapsedSecs <;>
      simp [hsc]

/-- Scenario 5 of the spec: release feed would return 2.0.0 but the cache
is only one hour old and holds 1.9.0. -/
def poll_env_fresh_cache : PollEnv :=
  { cachePathOk := true, cacheExists := true, mtimeOk := true,
    elapsedSecs := 3600, cacheContent := some ("1.9.0", none),
    fetchResult := some ("2.0.0", "release-url"),
    currentVersion := "1.9.0", platformSupported := true,
    alreadyStaged := false }

/-- C8 witness: with a one-hour-old cache holding 1.9.0 and a feed that
would return 2.0.0, no fetch happens and the cached value decides the
outcome. -/
theorem check_and_notify_cache_discipline_witness :
    (check_and_notify poll_env_fresh_cache).fetched = false
    ∧ (check_and_notify poll_env_fresh_cache).available =
        is_newer "1.9.0" "1.9.0"
    ∧ (check_and_notify poll_env_fresh_cache).available = false := by
  have h := (check_and_notify_cache_discipline poll_env_fresh_cache rfl).1
    rfl rfl (by decide)
  exact ⟨h.1, h.2.1 "1.9.0" none rfl, by decide⟩

/-! ### C9: fleet upgrade isolation -/

theorem run_fleet_upgrades_eq (l : List FleetProject) :
    run_fleet_upgrades l =
      ((l.filter apply_ok).length,
       (l.filter fun p => !apply_ok p).length,
       l.map fun p => p.name) := by
  induction l with
  | nil => rfl
  | cons p rest ih =>
    unfold run_fleet_upgrades
    rw [ih]
    cases hp : p.applyResult with
    | ok v =>
      have : apply_ok p = true := by simp [apply_ok, hp]
      simp [List.filter, this]
    | error e =>
      have : apply_ok p = false := by simp [apply_ok, hp]
      simp [List.filter, this]

/-- C9: the fleet upgrade loop attempts every upgradeable project in
order, one project's failure never aborting the others, and the final
counts are exactly one success per succeeding project and one failure per
failing project, summing to the number of upgradeable projects. -/
theorem fleet_upgrade_isolation :
    ∀ ps : List FleetProject,
      run_fleet_upgrades (bucket_projects ps).2.1 =
        (((bucket_projects ps).2.1.filter apply_ok).length,
         ((bucket_projects ps).2.1.filter fun p => !apply_ok p).length,
         (bucket_projects ps).2.1.map fun p => p.name)
      ∧ ((bucket_projects ps).2.1.filter apply_ok).length
          + ((bucket_projects ps).2.1.filter fun p => !apply_ok p).length
          = (bucket_projects ps).2.1.length := by
  intro ps
  refine ⟨run_fleet_upgrades_eq _, ?_⟩
  have : ∀ l : List FleetProject,
      (l.filter apply_ok).length + (l.filter fun p => !apply_ok p).length
        = l.length := by
    intro l
    induction l with
    | nil => rfl
    | cons p rest ih =>
      cases hp : apply_ok p <;> simp [List.filter, hp] <;> omega
  exact this _

/-! ### C10: versionless stores -/

/-- C10: a store whose project_meta has no schema_version row reads back
None (not an error), the compatibility checker treats it as version 1.0
and offers the full upgrade path to SCHEMA_VERSION, and the applier's
recomputed pending list for it is the whole registry. -/
theorem versionless_store_full_upgrade_path :
    ∀ s : Store, (∀ kv ∈ s.meta, kv.1 ≠ "schema_version") →
      get_schema_version s = none
      ∧ (check_upgrade_compatibility s).current_version = "1.0"
      ∧ (check_upgrade_compatibility s).target_version = SCHEMA_VERSION
      ∧ (check_upgrade_compatibility s).can_upgrade = true
      ∧ (check_upgrade_compatibility s).pending_upgrades = UPGRADE_REGISTRY
      ∧ get_pending_upgrades ((get_schema_version s).getD "1.0")
          SCHEMA_VERSION = UPGRADE_REGISTRY := by
  intro s hmeta
  have hget : get_schema_version s = none := by
    unfold get_schema_version
    rw [List.find?_eq_none.mpr]
    · rfl
    · intro kv hkv
      simp [hmeta kv hkv]
  have hpend : get_pending_upgrades "1.0" SCHEMA_VERSION =
      UPGRADE_REGISTRY := rfl
  have hchk : check_upgrade_compatibility s =
      { can_upgrade := true, current_version := "1.0",
        target_version := SCHEMA_VERSION,
        pending_upgrades := UPGRADE_REGISTRY,
        safe_changes :=
          (UPGRADE_REGISTRY.flatMap fun u => u.changes).map fun c =>
            { description := c.description, risk := c.risk,
              status :=
                if execute_ok c.verify s then "already_applied"
                else if query_row_ok c.verify s then "already_applied"
                else "pending" },
        warnings := [], errors := [] } := by
    unfold check_upgrade_compatibility
    rw [hget]
    simp only [Option.getD_none, Option.getD_some]
    rw [if_neg (by decide), hpend]
    rw [if_neg (by decide)]
  refine ⟨hget, ?_, ?_, ?_, ?_, ?_⟩
  · rw [hchk]
  · rw [hchk]
  · rw [hchk]
  · rw [hchk]
  · rw [hget]
    exact hpend

/-- A store carrying unrelated metadata but no schema_version row. -/
def store_versionless : Store :=
  { tables := ["project_meta", "sessions"], indexes := [], columns := [],
    meta := [("note", "x")] }

/-- C10 witness: the versionless-store behavior at a concrete store. -/
theorem versionless_store_full_upgrade_path_witness :
    get_schema_version store_versionless = none
    ∧ (check_upgrade_compatibility store_versionless).current_version = "1.0"
    ∧ (check_upgrade_compatibility store_versionless).can_upgrade = true
    ∧ (check_upgrade_compatibility store_versionless).pending_upgrades =
        UPGRADE_REGISTRY := by
  have h := versionless_store_full_upgrade_path store_versionless
    (by intro kv hkv; simp only [store_versionless, List.mem_cons,
          List.not_mem_nil, or_false] at hkv; subst hkv; decide)
  exact ⟨h.1, h.2.1, h.2.2.2.1, h.2.2.2.2.1⟩

end AiProj
